import Mathlib

/-!
# Verification of the GPTbuilderauto pipeline

A shallow embedding of the four components of the GPTbuilderauto
repository (generator, executor, deployer, monitor) together with proofs
of the behavioural properties stated in its specification.

Interactions with the operating system (subprocesses, the container
runtime, the filesystem, the clock, the LLM provider) are modelled as
explicit oracle inputs: each Python function that performs such an
interaction becomes a Lean function taking the outcome of the
interaction as an argument, and the surrounding control flow is
translated directly from the Python source.
-/

/-! ## Executor (`gptbuilderauto/executor/code_executor.py`) -/

/-- The result dictionary produced by every execution path of
`CodeExecutor`: keys `stdout`, `stderr`, `return_code`, `success`. -/
structure ExecutionResult where
  stdout : String
  stderr : String
  return_code : Int
  success : Bool
deriving Repr, DecidableEq

/-- Outcome of the `subprocess.run` call in `_execute_locally`:
the child completed (with captured output and exit code), the
`subprocess.TimeoutExpired` exception fired, or some other exception
was raised. -/
inductive SubprocOutcome where
  | completed (stdout stderr : String) (returncode : Int)
  | timedOut
  | raised (msg : String)
deriving Repr, DecidableEq

/-- Outcome of the `docker` client call in `_execute_in_docker`:
the container ran and returned its output, `docker.errors.ContainerError`
was raised (carrying optional captured stdout/stderr bytes, the exit
status, and the exception text), or some other exception was raised. -/
inductive DockerOutcome where
  | ran (output : String)
  | containerError (cstdout cstderr : Option String) (exitStatus : Int) (msg : String)
  | raised (msg : String)
deriving Repr, DecidableEq

/-- Python truthiness fallback `x.decode("utf-8") if x else dflt` used on
the optional byte strings of a `ContainerError` (absent or empty gives
the default). -/
def pyBytesOr (x : Option String) (dflt : String) : String :=
  match x with
  | some v => if v = "" then dflt else v
  | none => dflt

/-- `CodeExecutor._execute_locally`, lines 62-119: the temp-file write,
command construction and environment merge are effects on the oracle;
the returned dictionary is built from the `subprocess.run` outcome. -/
def CodeExecutor.executeLocally (timeout : Nat) (outcome : SubprocOutcome) : ExecutionResult :=
  match outcome with
  | .completed out err rc =>
      { stdout := out, stderr := err, return_code := rc, success := rc == 0 }
  | .timedOut =>
      { stdout := "",
        stderr := "Execution timeout after " ++ toString timeout ++ " seconds",
        return_code := -1, success := false }
  | .raised msg =>
      { stdout := "", stderr := msg, return_code := -1, success := false }

/-- `CodeExecutor._execute_in_docker`, lines 121-188 (the branch where a
docker client is available): the returned dictionary is built from the
container-run outcome. -/
def CodeExecutor.executeInDocker (outcome : DockerOutcome) : ExecutionResult :=
  match outcome with
  | .ran output =>
      { stdout := output, stderr := "", return_code := 0, success := true }
  | .containerError cstdout cstderr exitStatus msg =>
      { stdout := pyBytesOr cstdout "", stderr := pyBytesOr cstderr msg,
        return_code := exitStatus, success := false }
  | .raised msg =>
      { stdout := "", stderr := msg, return_code := -1, success := false }

/-- `CodeExecutor._get_extension`, lines 190-199: the fixed
language-to-extension dictionary with `.get(language.lower(), "txt")`. -/
def CodeExecutor.getExtension (language : String) : String :=
  let extensions : List (String × String) :=
    [("python", "py"), ("javascript", "js"), ("java", "java"), ("go", "go"), ("rust", "rs")]
  (extensions.lookup language.toLower).getD "txt"

/-! ## Deployer (`gptbuilderauto/deployer/deployer.py`) -/

/-- `Deployer._get_extension`, lines 190-199: textually the same table as
the executor's, embedded separately because it is a separate function in
the source. -/
def Deployer.getExtension (language : String) : String :=
  let extensions : List (String × String) :=
    [("python", "py"), ("javascript", "js"), ("java", "java"), ("go", "go"), ("rust", "rs")]
  (extensions.lookup language.toLower).getD "txt"

/-! ## Claims about the executor -/

/-- C1. Every execution path of the executor (local completion, local
timeout, local internal exception, container success, container error,
container internal exception) returns a result with
`success = (return_code == 0)`, and the timeout and internal-exception
paths hard-code `return_code = -1`, `success = false`. The hypothesis
reflects the `docker` library's contract that `ContainerError` is raised
only for a nonzero exit status. -/
theorem executor_success_iff_return_code_zero (t : Nat) (lo : SubprocOutcome)
    (dk : DockerOutcome)
    (hce : ∀ so se es msg, dk = DockerOutcome.containerError so se es msg → es ≠ 0) :
    ((CodeExecutor.executeLocally t lo).success
        = ((CodeExecutor.executeLocally t lo).return_code == 0)
      ∧ (lo = SubprocOutcome.timedOut ∨ (∃ m, lo = SubprocOutcome.raised m) →
          (CodeExecutor.executeLocally t lo).return_code = -1
            ∧ (CodeExecutor.executeLocally t lo).success = false))
    ∧ ((CodeExecutor.executeInDocker dk).success
        = ((CodeExecutor.executeInDocker dk).return_code == 0)
      ∧ ((∃ m, dk = DockerOutcome.raised m) →
          (CodeExecutor.executeInDocker dk).return_code = -1
            ∧ (CodeExecutor.executeInDocker dk).success = false)) := by
  constructor
  · cases lo with
    | completed out err rc => simp [CodeExecutor.executeLocally]
    | timedOut => simp [CodeExecutor.executeLocally]
    | raised msg => simp [CodeExecutor.executeLocally]
  · cases dk with
    | ran output => simp [CodeExecutor.executeInDocker]
    | containerError so se es msg =>
        have hes : es ≠ 0 := hce so se es msg rfl
        simp [CodeExecutor.executeInDocker, hes]
    | raised msg => simp [CodeExecutor.executeInDocker]

/-- Witness for C1 at a concrete container-error outcome with exit
status 2 and a concrete timed-out local outcome. -/
theorem executor_success_iff_return_code_zero_witness :
    (CodeExecutor.executeLocally 300 SubprocOutcome.timedOut).success = false
      ∧ (CodeExecutor.executeInDocker
          (DockerOutcome.containerError none none 2 "boom")).success
        = ((CodeExecutor.executeInDocker
          (DockerOutcome.containerError none none 2 "boom")).return_code == 0) := by
  have h := executor_success_iff_return_code_zero 300 SubprocOutcome.timedOut
    (DockerOutcome.containerError none none 2 "boom")
    (by intro so se es msg h; injection h with h1 h2 h3 h4; omega)
  exact ⟨(h.1.2 (Or.inl rfl)).2, h.2.1⟩

/-- C2. A local execution that hits the timeout returns
`success = false`, `return_code = -1`, empty stdout (no partial-output
capture), and a stderr message containing the word "timeout". -/
theorem local_timeout_result (t : Nat) :
    (CodeExecutor.executeLocally t SubprocOutcome.timedOut).success = false
    ∧ (CodeExecutor.executeLocally t SubprocOutcome.timedOut).return_code = -1
    ∧ (CodeExecutor.executeLocally t SubprocOutcome.timedOut).stdout = ""
    ∧ ∃ a b, (CodeExecutor.executeLocally t SubprocOutcome.timedOut).stderr
        = a ++ "timeout" ++ b := by
  refine ⟨rfl, rfl, rfl, "Execution ", " after " ++ toString t ++ " seconds", ?_⟩
  show "Execution timeout after " ++ toString t ++ " seconds"
      = "Execution " ++ "timeout" ++ (" after " ++ toString t ++ " seconds")
  have h : ("Execution " ++ "timeout") ++ " after " = "Execution timeout after " := rfl
  rw [← h, String.append_assoc, String.append_assoc, ← String.append_assoc " after "]

/-- C7. The extension mapping is a pure total function: it maps
(case-insensitively) python to py, javascript to js, java to java, go to
go, rust to rs, and every other input to the default "txt". -/
theorem getExtension_total_table (s : String) :
    CodeExecutor.getExtension s =
      if s.toLower = "python" then "py"
      else if s.toLower = "javascript" then "js"
      else if s.toLower = "java" then "java"
      else if s.toLower = "go" then "go"
      else if s.toLower = "rust" then "rs"
      else "txt" := by
  unfold CodeExecutor.getExtension
  simp only [List.lookup]
  repeat' split <;> simp_all

/-- C10. The executor's and the deployer's extension mappings are
extensionally equal on every language string. -/
theorem executor_deployer_extension_agree (language : String) :
    CodeExecutor.getExtension language = Deployer.getExtension language := rfl

/-! ## Monitor (`gptbuilderauto/monitor/maintenance.py`) -/

/-- One entry of the `deployment_path.glob("main.*")` result: its full
path string, its suffix (`Path.suffix`, including the dot), its size
(`stat().st_size`), and the outcome of `_check_python_syntax` on it,
i.e. whether `python3 -m py_compile` would exit with status 0
(`False` also covers the exception branch of that helper). -/
structure MainFile where
  path : String
  suffix : String
  size : Nat
  pyCompileOk : Bool
deriving Repr, DecidableEq

/-- The monitor's view of one deployment path: whether the path exists
and the ordered `glob("main.*")` matches inside it. -/
structure DeployDirView where
  pathExists : Bool
  mainFiles : List MainFile
deriving Repr, DecidableEq

/-- The dictionary returned by `MaintenanceMonitor.health_check`: the
early error returns populate `status`/`message`/`timestamp` only, the
main branch populates the remaining keys. -/
structure HealthRecord where
  status : String
  message : Option String := none
  deployment_path : Option String := none
  main_file : Option String := none
  file_size : Option Nat := none
  syntax_valid : Option Bool := none
  timestamp : String
deriving Repr, DecidableEq

/-- `pathlib.PurePath.name`: the final path component (empty components
from repeated or trailing separators are dropped by pathlib's parsing). -/
def pathName (p : String) : String :=
  (((p.splitOn "/").filter (fun c => c ≠ "")).getLastD "")

/-- `MaintenanceMonitor`: the check interval and the in-memory
`health_history` dictionary, modelled as a total map from deployment
name to the list of records (a missing key is the empty list). -/
structure MaintenanceMonitor where
  check_interval : Nat := 300
  health_history : String → List HealthRecord

/-- A freshly constructed monitor (`__init__`): empty history. -/
def MaintenanceMonitor.init (check_interval : Nat := 300) : MaintenanceMonitor :=
  { check_interval, health_history := fun _ => [] }

/-- `MaintenanceMonitor.health_check`, lines 28-85: returns the health
record and the updated monitor. The filesystem facts (existence, glob
matches, sizes, syntax-check outcome) are the `DeployDirView` oracle;
`now` is the `datetime.now().isoformat()` oracle. Note that the two
early error returns (missing path, missing main file) do not reach the
history-append statement at lines 76-80. -/
def MaintenanceMonitor.healthCheck (m : MaintenanceMonitor) (deployment_path : String)
    (dir : DeployDirView) (now : String) : HealthRecord × MaintenanceMonitor :=
  if !dir.pathExists then
    ({ status := "error", message := some "Deployment not found", timestamp := now }, m)
  else
    match dir.mainFiles with
    | [] =>
        ({ status := "error", message := some "Main file not found", timestamp := now }, m)
    | mainFile :: _ =>
        let syntaxOk := if mainFile.suffix = ".py" then mainFile.pyCompileOk else true
        let healthStatus : HealthRecord :=
          { status := if syntaxOk then "healthy" else "warning",
            deployment_path := some deployment_path,
            main_file := some mainFile.path,
            file_size := some mainFile.size,
            syntax_valid := some syntaxOk,
            timestamp := now }
        let deploymentName := pathName deployment_path
        (healthStatus,
          { m with health_history := fun n =>
              if n = deploymentName then m.health_history n ++ [healthStatus]
              else m.health_history n })

/-! ## Claims about the monitor's health check -/

/-- C3. The health-check record's status: missing path gives
status "error" with message "Deployment not found"; no `main.*` match
gives status "error" with message "Main file not found"; a first main
file with suffix ".py" whose compile check fails gives
`syntax_valid = false` and status "warning"; otherwise the status is
"healthy", and a non-".py" first main file is marked syntax-valid
without any check. -/
theorem health_check_status_cases (m : MaintenanceMonitor) (p : String)
    (d : DeployDirView) (now : String) :
    (d.pathExists = false →
        (m.healthCheck p d now).1.status = "error"
      ∧ (m.healthCheck p d now).1.message = some "Deployment not found")
  ∧ (d.pathExists = true → d.mainFiles = [] →
        (m.healthCheck p d now).1.status = "error"
      ∧ (m.healthCheck p d now).1.message = some "Main file not found")
  ∧ (∀ f rest, d.pathExists = true → d.mainFiles = f :: rest →
      f.suffix = ".py" → f.pyCompileOk = false →
        (m.healthCheck p d now).1.syntax_valid = some false
      ∧ (m.healthCheck p d now).1.status = "warning")
  ∧ (∀ f rest, d.pathExists = true → d.mainFiles = f :: rest →
      (f.suffix ≠ ".py" ∨ f.pyCompileOk = true) →
        (m.healthCheck p d now).1.status = "healthy"
      ∧ (f.suffix ≠ ".py" → (m.healthCheck p d now).1.syntax_valid = some true)) := by
  refine ⟨?_, ?_, ?_, ?_⟩
  · intro h
    simp [MaintenanceMonitor.healthCheck, h]
  · intro h hm
    simp [MaintenanceMonitor.healthCheck, h, hm]
  · intro f rest h hm hsuf hok
    simp [MaintenanceMonitor.healthCheck, h, hm, hsuf, hok]
  · intro f rest h hm hcase
    rcases hcase with hsuf | hok
    · constructor
      · simp [MaintenanceMonitor.healthCheck, h, hm, hsuf]
      · intro _
        simp [MaintenanceMonitor.healthCheck, h, hm, hsuf]
    · constructor
      · by_cases hsuf : f.suffix = ".py" <;>
          simp [MaintenanceMonitor.healthCheck, h, hm, hsuf, hok]
      · intro hsuf
        simp [MaintenanceMonitor.healthCheck, h, hm, hsuf]

/-- Witness for C3: a concrete missing path, a concrete directory whose
first main file is a syntactically invalid `.py` file, and a concrete
healthy non-Python deployment. -/
theorem health_check_status_cases_witness :
    ((MaintenanceMonitor.init).healthCheck "/tmp/gone"
        { pathExists := false, mainFiles := [] } "t0").1.status = "error"
  ∧ ((MaintenanceMonitor.init).healthCheck "/tmp/app"
        { pathExists := true,
          mainFiles := [{ path := "/tmp/app/main.py", suffix := ".py",
                          size := 7, pyCompileOk := false }] } "t1").1.status = "warning"
  ∧ ((MaintenanceMonitor.init).healthCheck "/tmp/site"
        { pathExists := true,
          mainFiles := [{ path := "/tmp/site/main.go", suffix := ".go",
                          size := 3, pyCompileOk := false }] } "t2").1.status = "healthy" := by
  refine ⟨?_, ?_, ?_⟩
  · exact ((health_check_status_cases MaintenanceMonitor.init "/tmp/gone"
      { pathExists := false, mainFiles := [] } "t0").1 rfl).1
  · exact ((health_check_status_cases MaintenanceMonitor.init "/tmp/app"
      { pathExists := true,
        mainFiles := [{ path := "/tmp/app/main.py", suffix := ".py",
                        size := 7, pyCompileOk := false }] } "t1").2.2.1
      _ _ rfl rfl rfl rfl).2
  · exact ((health_check_status_cases MaintenanceMonitor.init "/tmp/site"
      { pathExists := true,
        mainFiles := [{ path := "/tmp/site/main.go", suffix := ".go",
                        size := 3, pyCompileOk := false }] } "t2").2.2.2
      _ _ rfl rfl (Or.inl (by decide))).1

/-- C4 counterexample: a health check on a missing path returns the
error record but leaves the history untouched, so the history for the
path's base name does not end with the returned record. -/
theorem health_history_error_record_not_appended :
    ¬ ((((MaintenanceMonitor.init).healthCheck "/tmp/app"
          { pathExists := false, mainFiles := [] } "t0").2.health_history
            (pathName "/tmp/app")).getLast?
        = some (((MaintenanceMonitor.init).healthCheck "/tmp/app"
          { pathExists := false, mainFiles := [] } "t0").1)) := by
  intro h
  simp [MaintenanceMonitor.healthCheck, MaintenanceMonitor.init] at h

/-- C4 amended. Only the health checks that reach the healthy/warning
branch append their record: when the path exists and some `main.*` file
is present, the history for the path's base name afterwards ends with
the returned record; in the two early error cases (missing path,
missing main file) the monitor state is unchanged. -/
theorem health_history_appended_on_main_branch (m : MaintenanceMonitor) (p : String)
    (d : DeployDirView) (now : String) :
    (d.pathExists = true → ∀ f rest, d.mainFiles = f :: rest →
        ((m.healthCheck p d now).2.health_history (pathName p)).getLast?
          = some (m.healthCheck p d now).1)
  ∧ (d.pathExists = false → (m.healthCheck p d now).2 = m)
  ∧ (d.mainFiles = [] → (m.healthCheck p d now).2 = m) := by
  refine ⟨?_, ?_, ?_⟩
  · intro h f rest hm
    simp [MaintenanceMonitor.healthCheck, h, hm]
  · intro h
    simp [MaintenanceMonitor.healthCheck, h]
  · intro hm
    by_cases h : d.pathExists <;>
      simp [MaintenanceMonitor.healthCheck, h, hm]

/-- Witness for the amended C4: after a concrete successful health check
the history under the base name ends with the returned record, and a
concrete failed check leaves the initial monitor unchanged. -/
theorem health_history_appended_on_main_branch_witness :
    ((((MaintenanceMonitor.init).healthCheck "/tmp/deploys/app_1"
        { pathExists := true,
          mainFiles := [{ path := "/tmp/deploys/app_1/main.py", suffix := ".py",
                          size := 11, pyCompileOk := true }] } "t3").2.health_history
          (pathName "/tmp/deploys/app_1")).getLast?
      = some (((MaintenanceMonitor.init).healthCheck "/tmp/deploys/app_1"
        { pathExists := true,
          mainFiles := [{ path := "/tmp/deploys/app_1/main.py", suffix := ".py",
                          size := 11, pyCompileOk := true }] } "t3").1))
  ∧ (((MaintenanceMonitor.init).healthCheck "/tmp/gone"
        { pathExists := false, mainFiles := [] } "t4").2 = MaintenanceMonitor.init) := by
  constructor
  · exact (health_history_appended_on_main_branch MaintenanceMonitor.init "/tmp/deploys/app_1"
      { pathExists := true,
        mainFiles := [{ path := "/tmp/deploys/app_1/main.py", suffix := ".py",
                        size := 11, pyCompileOk := true }] } "t3").1 rfl _ _ rfl
  · exact (health_history_appended_on_main_branch MaintenanceMonitor.init "/tmp/gone"
      { pathExists := false, mainFiles := [] } "t4").2.1 rfl

/-! ## Deployer: timestamped deployment names -/

/-- A wall-clock instant at second granularity, the part of
`datetime.now()` consumed by `strftime("%Y%m%d_%H%M%S")`. -/
structure DateTime where
  year : Nat
  month : Nat
  day : Nat
  hour : Nat
  minute : Nat
  second : Nat
deriving Repr, DecidableEq

/-- The field ranges guaranteed by `datetime` (`MINYEAR = 1`,
`MAXYEAR = 9999`, calendar-valid month/day, clock-valid time). -/
def DateTime.Valid (t : DateTime) : Prop :=
  1 ≤ t.year ∧ t.year ≤ 9999
  ∧ 1 ≤ t.month ∧ t.month ≤ 12
  ∧ 1 ≤ t.day ∧ t.day ≤ 31
  ∧ t.hour < 24 ∧ t.minute < 60 ∧ t.second < 60

instance (t : DateTime) : Decidable t.Valid := by
  unfold DateTime.Valid
  infer_instance

/-- Zero-padding to two digits, as `strftime` renders `%m`, `%d`, `%H`,
`%M`, `%S` (faithful for inputs below 100, which `Valid` guarantees). -/
def pad2 (n : Nat) : String :=
  if n < 10 then "0" ++ toString n else toString n

/-- Zero-padding to four digits, as `strftime` renders `%Y` (faithful
for years below 10000, which `datetime.MAXYEAR` guarantees): the high
and low two-digit halves are each two-digit padded. -/
def pad4 (n : Nat) : String :=
  pad2 (n / 100) ++ pad2 (n % 100)

/-- `datetime.now().strftime("%Y%m%d_%H%M%S")` on the instant `t`. -/
def strftimeCompact (t : DateTime) : String :=
  pad4 t.year ++ pad2 t.month ++ pad2 t.day ++ "_"
    ++ pad2 t.hour ++ pad2 t.minute ++ pad2 t.second

/-- The dictionary returned by `Deployer.deploy_code`. -/
structure DeployInfo where
  deployment_name : String
  deployment_path : Option String := none
  code_file : Option String := none
  error : Option String := none
  success : Bool
deriving Repr, DecidableEq

/-- `Deployer.deploy_code`, lines 36-85: the deployment name and
directory are derived from the instant `t` read from the clock; the
directory/file writes either all succeed (`fsError = none`) or the first
failing one raises, caught at line 83 (`fsError = some e`). -/
def Deployer.deployCode (deploy_path name language : String) (t : DateTime)
    (fsError : Option String) : DeployInfo :=
  let timestamp := strftimeCompact t
  let deployment_name := name ++ "_" ++ timestamp
  let deployment_dir := deploy_path ++ "/" ++ deployment_name
  match fsError with
  | some e => { deployment_name, error := some e, success := false }
  | none =>
      let extension := Deployer.getExtension language
      { deployment_name,
        deployment_path := some deployment_dir,
        code_file := some (deployment_dir ++ "/main." ++ extension),
        success := true }

/-! ### Padding lemmas -/

theorem pad2_length_fin : ∀ i : Fin 100, (pad2 i.val).length = 2 := by decide

theorem pad2_length {n : Nat} (h : n < 100) : (pad2 n).length = 2 :=
  pad2_length_fin ⟨n, h⟩

set_option maxRecDepth 4096 in
theorem pad2_inj_fin : ∀ i j : Fin 100, pad2 i.val = pad2 j.val → i = j := by decide

theorem pad2_inj {a b : Nat} (ha : a < 100) (hb : b < 100) (h : pad2 a = pad2 b) :
    a = b := by
  have := pad2_inj_fin ⟨a, ha⟩ ⟨b, hb⟩ h
  exact congrArg Fin.val this

theorem str_append_inj (a b c d : String) (h : a ++ b = c ++ d)
    (hl : a.length = c.length) : a = c ∧ b = d := by
  have hd : a.data ++ b.data = c.data ++ d.data := by
    have := congrArg String.data h
    simpa [String.data_append] using this
  have hl2 : a.data.length = c.data.length := hl
  obtain ⟨h1, h2⟩ := List.append_inj hd hl2
  cases a; cases b; cases c; cases d
  simp_all

theorem str_append_left_cancel (a b c : String) (h : a ++ b = a ++ c) : b = c := by
  have hd : a.data ++ b.data = a.data ++ c.data := by
    have := congrArg String.data h
    simpa [String.data_append] using this
  have := List.append_cancel_left hd
  cases b; cases c
  simp_all

theorem pad4_length {n : Nat} (h : n < 10000) : (pad4 n).length = 4 := by
  have h1 : n / 100 < 100 := by omega
  have h2 : n % 100 < 100 := by omega
  simp [pad4, String.length_append, pad2_length h1, pad2_length h2]

theorem pad4_inj {a b : Nat} (ha : a < 10000) (hb : b < 10000) (h : pad4 a = pad4 b) :
    a = b := by
  have ha1 : a / 100 < 100 := by omega
  have ha2 : a % 100 < 100 := by omega
  have hb1 : b / 100 < 100 := by omega
  have hb2 : b % 100 < 100 := by omega
  obtain ⟨h1, h2⟩ := str_append_inj _ _ _ _ h
    (by rw [pad2_length ha1, pad2_length hb1])
  have e1 := pad2_inj ha1 hb1 h1
  have e2 := pad2_inj ha2 hb2 h2
  omega

theorem strftimeCompact_length {t : DateTime} (h : t.Valid) :
    (strftimeCompact t).length = 15 := by
  obtain ⟨hy1, hy2, hmo1, hmo2, hd1, hd2, hh, hmi, hs⟩ := h
  have : ("_" : String).length = 1 := rfl
  simp [strftimeCompact, String.length_append, this,
    pad4_length (show t.year < 10000 by omega),
    pad2_length (show t.month < 100 by omega),
    pad2_length (show t.day < 100 by omega),
    pad2_length (show t.hour < 100 by omega),
    pad2_length (show t.minute < 100 by omega),
    pad2_length (show t.second < 100 by omega)]

theorem strftimeCompact_inj {t1 t2 : DateTime} (h1 : t1.Valid) (h2 : t2.Valid)
    (h : strftimeCompact t1 = strftimeCompact t2) : t1 = t2 := by
  obtain ⟨ay1, ay2, amo1, amo2, ad1, ad2, ah, ami, asec⟩ := h1
  obtain ⟨by1, by2, bmo1, bmo2, bd1, bd2, bh, bmi, bsec⟩ := h2
  have ylt1 : t1.year < 10000 := by omega
  have ylt2 : t2.year < 10000 := by omega
  have molt1 : t1.month < 100 := by omega
  have molt2 : t2.month < 100 := by omega
  have dlt1 : t1.day < 100 := by omega
  have dlt2 : t2.day < 100 := by omega
  have hlt1 : t1.hour < 100 := by omega
  have hlt2 : t2.hour < 100 := by omega
  have milt1 : t1.minute < 100 := by omega
  have milt2 : t2.minute < 100 := by omega
  have slt1 : t1.second < 100 := by omega
  have slt2 : t2.second < 100 := by omega
  have hu : ("_" : String).length = 1 := rfl
  obtain ⟨h6, hsec⟩ := str_append_inj _ _ _ _ h
    (by simp [String.length_append, hu, pad4_length ylt1, pad4_length ylt2,
      pad2_length molt1, pad2_length molt2, pad2_length dlt1, pad2_length dlt2,
      pad2_length hlt1, pad2_length hlt2, pad2_length milt1, pad2_length milt2])
  obtain ⟨h5, hmin⟩ := str_append_inj _ _ _ _ h6
    (by simp [String.length_append, hu, pad4_length ylt1, pad4_length ylt2,
      pad2_length molt1, pad2_length molt2, pad2_length dlt1, pad2_length dlt2,
      pad2_length hlt1, pad2_length hlt2])
  obtain ⟨h4, hhour⟩ := str_append_inj _ _ _ _ h5
    (by simp [String.length_append, hu, pad4_length ylt1, pad4_length ylt2,
      pad2_length molt1, pad2_length molt2, pad2_length dlt1, pad2_length dlt2])
  obtain ⟨h3, -⟩ := str_append_inj _ _ _ _ h4
    (by simp [String.length_append, pad4_length ylt1, pad4_length ylt2,
      pad2_length molt1, pad2_length molt2, pad2_length dlt1, pad2_length dlt2])
  obtain ⟨h2a, hday⟩ := str_append_inj _ _ _ _ h3
    (by simp [String.length_append, pad4_length ylt1, pad4_length ylt2,
      pad2_length molt1, pad2_length molt2])
  obtain ⟨hyear, hmonth⟩ := str_append_inj _ _ _ _ h2a
    (by simp [pad4_length ylt1, pad4_length ylt2])
  have ey := pad4_inj ylt1 ylt2 hyear
  have emo := pad2_inj molt1 molt2 hmonth
  have ed := pad2_inj dlt1 dlt2 hday
  have eh := pad2_inj hlt1 hlt2 hhour
  have emi := pad2_inj milt1 milt2 hmin
  have es := pad2_inj slt1 slt2 hsec
  cases t1; cases t2
  simp_all

/-- C5. A successful deploy names its directory
`<name>_<YYYYMMDD_HHMMSS>` (base name, underscore, the 15-character
second-granularity timestamp): two deploys of the same base name at
distinct seconds get distinct directories, and two deploys within the
same second collide on the same directory. -/
theorem deploy_directory_timestamped (root name language : String) (t1 t2 : DateTime)
    (h1 : t1.Valid) (h2 : t2.Valid) :
    (Deployer.deployCode root name language t1 none).deployment_name
        = name ++ "_" ++ strftimeCompact t1
    ∧ (strftimeCompact t1).length = 15
    ∧ (Deployer.deployCode root name language t1 none).success = true
    ∧ (t1 ≠ t2 →
        (Deployer.deployCode root name language t1 none).deployment_path
          ≠ (Deployer.deployCode root name language t2 none).deployment_path)
    ∧ (t1 = t2 →
        (Deployer.deployCode root name language t1 none).deployment_path
          = (Deployer.deployCode root name language t2 none).deployment_path) := by
  refine ⟨rfl, strftimeCompact_length h1, rfl, ?_, ?_⟩
  · intro hne heq
    apply hne
    have hdir : root ++ "/" ++ (name ++ "_" ++ strftimeCompact t1)
        = root ++ "/" ++ (name ++ "_" ++ strftimeCompact t2) := by
      simpa [Deployer.deployCode] using heq
    have hname : name ++ "_" ++ strftimeCompact t1
        = name ++ "_" ++ strftimeCompact t2 := by
      have := str_append_left_cancel (root ++ "/") _ _
        (by simpa [String.append_assoc] using hdir)
      simpa [String.append_assoc] using this
    have hts : strftimeCompact t1 = strftimeCompact t2 :=
      str_append_left_cancel (name ++ "_") _ _
        (by simpa [String.append_assoc] using hname)
    exact strftimeCompact_inj h1 h2 hts
  · intro heq
    rw [heq]

/-- Witness for C5: two concrete instants one second apart give distinct
deployment directories. -/
theorem deploy_directory_timestamped_witness :
    DateTime.Valid ⟨2024, 1, 2, 3, 4, 5⟩
    ∧ DateTime.Valid ⟨2024, 1, 2, 3, 4, 6⟩
    ∧ (Deployer.deployCode "/tmp/deploys" "app" "python" ⟨2024, 1, 2, 3, 4, 5⟩ none).deployment_path
        ≠ (Deployer.deployCode "/tmp/deploys" "app" "python" ⟨2024, 1, 2, 3, 4, 6⟩ none).deployment_path := by
  refine ⟨by decide, by decide, ?_⟩
  exact (deploy_directory_timestamped "/tmp/deploys" "app" "python"
    ⟨2024, 1, 2, 3, 4, 5⟩ ⟨2024, 1, 2, 3, 4, 6⟩ (by decide) (by decide)).2.2.2.1
    (by decide)

/-! ## Deployer: listing and deletion -/

/-- One entry of `self.deploy_path.iterdir()`: its final name, whether
it is a directory, the text of its `metadata.json` if that file exists,
and its `st_ctime` rendered as an ISO string. -/
structure DirEntry where
  name : String
  isDir : Bool
  metadataJson : Option String := none
  ctime : String := ""
deriving Repr, DecidableEq

/-- One element of the list returned by `Deployer.list_deployments`. -/
structure DeploymentListing where
  name : String
  path : String
  created : String
  metadataJson : Option String
deriving Repr, DecidableEq

/-- `Deployer.list_deployments`, lines 133-164: every immediate child
that is a directory contributes one record; `metadata.json` is read back
when present (`none` models the empty default mapping). -/
def Deployer.listDeployments (deploy_path : String) (entries : List DirEntry) :
    List DeploymentListing :=
  (entries.filter (fun item => item.isDir)).map (fun item =>
    { name := item.name, path := deploy_path ++ "/" ++ item.name,
      created := item.ctime, metadataJson := item.metadataJson })

/-- `Deployer.delete_deployment`, lines 166-188: `deployment_dir.exists()`
is true when some entry carries the name; `shutil.rmtree` removes the
directory (a directory holds at most one entry per name, so removal is
the name filter), while on a non-directory entry it raises
`NotADirectoryError`, which the `except` clause turns into `False`. -/
def Deployer.deleteDeployment (entries : List DirEntry) (name : String) :
    Bool × List DirEntry :=
  match entries.find? (fun e => e.name == name) with
  | some e =>
      if e.isDir then (true, entries.filter (fun x => !(x.name == name)))
      else (false, entries)
  | none => (false, entries)

/-- C9. `delete_deployment` returns a boolean and never raises: when the
named subdirectory exists it is removed — it no longer appears in a
subsequent `list_deployments` — and `true` is returned; when no entry of
that name exists, `false` is returned and nothing changes. -/
theorem delete_deployment_spec (root name : String) (entries : List DirEntry) :
    (∀ e, entries.find? (fun x => x.name == name) = some e → e.isDir = true →
        (Deployer.deleteDeployment entries name).1 = true
      ∧ ∀ l ∈ Deployer.listDeployments root (Deployer.deleteDeployment entries name).2,
          l.name ≠ name)
  ∧ ((∀ e ∈ entries, e.name ≠ name) →
        (Deployer.deleteDeployment entries name).1 = false
      ∧ (Deployer.deleteDeployment entries name).2 = entries) := by
  constructor
  · intro e hfind hdir
    refine ⟨by simp [Deployer.deleteDeployment, hfind, hdir], ?_⟩
    intro l hl
    simp only [Deployer.deleteDeployment, hfind, hdir, if_pos,
      Deployer.listDeployments, List.mem_map, List.mem_filter] at hl
    obtain ⟨item, ⟨⟨hmem, hname⟩, -⟩, rfl⟩ := hl
    simpa using hname
  · intro hnone
    have hfind : entries.find? (fun x => x.name == name) = none := by
      rw [List.find?_eq_none]
      intro x hx
      simpa using hnone x hx
    simp [Deployer.deleteDeployment, hfind]

/-- Witness for C9: deleting the one existing deployment directory
returns true and empties the listing; deleting a missing name returns
false and leaves the entries unchanged. -/
theorem delete_deployment_spec_witness :
    (Deployer.deleteDeployment [{ name := "app_1", isDir := true }] "app_1").1 = true
    ∧ (Deployer.deleteDeployment [{ name := "app_1", isDir := true }] "missing").1 = false
    ∧ (Deployer.deleteDeployment [{ name := "app_1", isDir := true }] "missing").2
        = [{ name := "app_1", isDir := true }] := by
  refine ⟨?_, ?_, ?_⟩
  · exact ((delete_deployment_spec "/tmp/deploys" "app_1"
      [{ name := "app_1", isDir := true }]).1
      { name := "app_1", isDir := true } rfl rfl).1
  · exact ((delete_deployment_spec "/tmp/deploys" "missing"
      [{ name := "app_1", isDir := true }]).2 (by decide)).1
  · exact ((delete_deployment_spec "/tmp/deploys" "missing"
      [{ name := "app_1", isDir := true }]).2 (by decide)).2

/-! ## Generator (`gptbuilderauto/core/code_generator.py`) -/

/-- One chat message of the completion request. -/
structure ChatMessage where
  role : String
  content : String
deriving Repr, DecidableEq

/-- The request handed to `client.chat.completions.create`: model,
messages, and the fixed sampling temperature 0.7, stored in tenths to
stay within exact arithmetic. -/
structure ChatRequest where
  model : String
  messages : List ChatMessage
  temperatureTenths : Nat
deriving Repr, DecidableEq

/-- Outcome of the provider call: a reply (first choice content and
total token usage) or a raised provider exception. -/
inductive ProviderOutcome where
  | reply (content : String) (total_tokens : Nat)
  | failure (msg : String)
deriving Repr, DecidableEq

/-- The dictionary returned by `CodeGenerator.generate_code`. -/
structure GenerationResult where
  code : String
  language : String
  requirement : String
  model : String
  tokens_used : Nat
deriving Repr, DecidableEq

/-- Python truthiness of an optional string (`None` and `""` are falsy). -/
def pyTruthy (s : Option String) : Bool :=
  match s with
  | none => false
  | some v => !(v == "")

/-- `CodeGenerator`: the stored key, model name, and client. The client
is `OpenAI(api_key=self.api_key)` when the key is truthy, else `None`;
it is modelled by the key it wraps. -/
structure CodeGenerator where
  api_key : Option String
  model : String
  client : Option String
deriving Repr, DecidableEq

/-- `CodeGenerator.__init__`, lines 16-27:
`self.api_key = api_key or os.getenv("OPENAI_API_KEY")` and
`self.client = OpenAI(api_key=self.api_key) if self.api_key else None`.
The body raises nothing, so construction always produces a generator. -/
def CodeGenerator.init (api_key env_api_key : Option String) (model : String) :
    CodeGenerator :=
  let key := if pyTruthy api_key then api_key else env_api_key
  { api_key := key, model, client := if pyTruthy key then key else none }

/-- `CodeGenerator.generate_code`, lines 29-75: raises
`ValueError("OpenAI API key not configured")` when no client exists,
otherwise builds the two-part prompt, calls the provider, and either
returns the result dictionary or re-raises the provider's exception.
Raised exceptions are the `Except.error` branch. -/
def CodeGenerator.generateCode (g : CodeGenerator) (requirement : String)
    (language : String) (context : Option String)
    (provider : ChatRequest → ProviderOutcome) : Except String GenerationResult :=
  if g.client = none then .error "OpenAI API key not configured"
  else
    let system_prompt :=
      "You are an expert " ++ language ++ " developer.\n"
        ++ "Generate clean, well-documented, production-ready code based on the user's requirements.\n"
        ++ "Include error handling, type hints, and follow best practices."
    let user_prompt := "Requirement: " ++ requirement
      ++ (match context with
          | some c => "\n\nContext:\n" ++ c
          | none => "")
    let req : ChatRequest :=
      { model := g.model,
        messages := [{ role := "system", content := system_prompt },
                     { role := "user", content := user_prompt }],
        temperatureTenths := 7 }
    match provider req with
    | .reply content tokens =>
        .ok { code := content, language, requirement, model := g.model,
              tokens_used := tokens }
    | .failure msg => .error msg

/-- `CodeGenerator.refine_code`, lines 77-113: same client guard, then a
single-message prompt; the reply content is returned as the refined
code. -/
def CodeGenerator.refineCode (g : CodeGenerator) (code feedback language : String)
    (provider : ChatRequest → ProviderOutcome) : Except String String :=
  if g.client = none then .error "OpenAI API key not configured"
  else
    let prompt :=
      "Here is some " ++ language ++ " code:\n\n```" ++ language ++ "\n" ++ code
        ++ "\n```\n\nPlease refine this code based on the following feedback:\n"
        ++ feedback ++ "\n\nProvide only the refined code without explanations."
    let req : ChatRequest :=
      { model := g.model,
        messages := [{ role := "user", content := prompt }],
        temperatureTenths := 7 }
    match provider req with
    | .reply content _ => .ok content
    | .failure msg => .error msg

/-- `CodeGenerator.generate_tests`, lines 115-147: same client guard,
then a single-message test-authoring prompt. -/
def CodeGenerator.generateTests (g : CodeGenerator) (code language : String)
    (provider : ChatRequest → ProviderOutcome) : Except String String :=
  if g.client = none then .error "OpenAI API key not configured"
  else
    let prompt :=
      "Generate comprehensive unit tests for this " ++ language ++ " code:\n\n```"
        ++ language ++ "\n" ++ code
        ++ "\n```\n\nInclude edge cases and error conditions. Use pytest for Python."
    let req : ChatRequest :=
      { model := g.model,
        messages := [{ role := "user", content := prompt }],
        temperatureTenths := 7 }
    match provider req with
    | .reply content _ => .ok content
    | .failure msg => .error msg

/-- C6 counterexample: with no key argument and no environment
variable, construction does not fail — it returns a generator whose
client is `None` — and the configuration error only arises when
`generate_code` is called, refuting "raised at generator construction
time". -/
theorem config_error_raised_at_call_not_construction :
    CodeGenerator.init none none "gpt-4"
      = { api_key := none, model := "gpt-4", client := none }
    ∧ (CodeGenerator.init none none "gpt-4").generateCode "req" "python" none
        (fun _ => ProviderOutcome.reply "print(1)" 5)
      = Except.error "OpenAI API key not configured" := by
  exact ⟨rfl, rfl⟩

/-- C6 amended. With no API credential configured (no truthy key
argument and no truthy environment variable), construction succeeds
with `client = None`, and every call to `generate_code`, `refine_code`
and `generate_tests` then raises the configuration `ValueError` without
contacting the provider (the result is the same error for every
provider oracle). -/
theorem generator_credential_guard (api_key env_api_key : Option String)
    (m : String) (h1 : pyTruthy api_key = false) (h2 : pyTruthy env_api_key = false) :
    (CodeGenerator.init api_key env_api_key m).client = none
    ∧ (∀ req lang ctx provider,
        (CodeGenerator.init api_key env_api_key m).generateCode req lang ctx provider
          = Except.error "OpenAI API key not configured")
    ∧ (∀ code feedback lang provider,
        (CodeGenerator.init api_key env_api_key m).refineCode code feedback lang provider
          = Except.error "OpenAI API key not configured")
    ∧ (∀ code lang provider,
        (CodeGenerator.init api_key env_api_key m).generateTests code lang provider
          = Except.error "OpenAI API key not configured") := by
  have hc : (CodeGenerator.init api_key env_api_key m).client = none := by
    simp [CodeGenerator.init, h1, h2]
  refine ⟨hc, ?_, ?_, ?_⟩
  · intro req lang ctx provider
    simp [CodeGenerator.generateCode, hc]
  · intro code feedback lang provider
    simp [CodeGenerator.refineCode, hc]
  · intro code lang provider
    simp [CodeGenerator.generateTests, hc]

/-- Witness for the amended C6: the concrete credential-less generator
(empty-string key argument, unset environment variable) fails all three
calls with the configuration error. -/
theorem generator_credential_guard_witness :
    (CodeGenerator.init (some "") none "gpt-4").client = none
    ∧ (CodeGenerator.init (some "") none "gpt-4").generateCode "a prime checker"
        "python" none (fun _ => ProviderOutcome.reply "def f(): pass" 9)
      = Except.error "OpenAI API key not configured"
    ∧ (CodeGenerator.init (some "") none "gpt-4").refineCode "x = 1" "rename x"
        "python" (fun _ => ProviderOutcome.reply "y = 1" 3)
      = Except.error "OpenAI API key not configured"
    ∧ (CodeGenerator.init (some "") none "gpt-4").generateTests "x = 1"
        "python" (fun _ => ProviderOutcome.reply "def test(): pass" 4)
      = Except.error "OpenAI API key not configured" := by
  obtain ⟨hc, hg, hr, ht⟩ := generator_credential_guard (some "") none "gpt-4" rfl rfl
  exact ⟨hc, hg _ _ _ _, hr _ _ _ _, ht _ _ _⟩

/-! ## Monitor: log analysis -/

/-- The dictionary returned by `MaintenanceMonitor.analyze_logs`. -/
structure LogAnalysis where
  status : String
  message : Option String := none
  total_lines : Nat := 0
  errors : Nat := 0
  warnings : Nat := 0
  recent_errors : List String := []
  recent_warnings : List String := []
  timestamp : Option String := none
deriving Repr, DecidableEq

/-- Python's substring test `pat in s`. -/
def strContains (s pat : String) : Bool :=
  decide (pat.data <:+: s.data)

/-- Python's `str.upper()` (on the ASCII log text the source feeds it). -/
def pyUpper (s : String) : String :=
  ⟨s.data.map Char.toUpper⟩

/-- Python's `str.split(sep)` for a one-character separator: splits at
every occurrence and keeps empty pieces (`"".split(sep)` is `[""]`). -/
def pySplitChar (sep : Char) : List Char → List (List Char)
  | [] => [[]]
  | c :: rest =>
      let r := pySplitChar sep rest
      if c == sep then [] :: r
      else
        match r with
        | [] => [[c]]
        | h :: t => (c :: h) :: t

/-- `content.split("\n")` as the monitor uses it. -/
def pySplitLines (s : String) : List String :=
  (pySplitChar (Char.ofNat 10) s.data).map String.mk

/-- Python's tail slice `l[-n:]` (for nonempty `l`; on `[]` it returns
`[]`, which also matches the source's `if errors else []` guard). -/
def lastSlice (n : Nat) (l : List String) : List String :=
  l.drop (l.length - n)

/-- `MaintenanceMonitor.analyze_logs`, lines 109-142: file existence and
content come from the filesystem oracle; the content is split on
newlines and each line is classified by the case-insensitive substring
tests `"ERROR" in line.upper()` and `"WARNING" in line.upper()`. -/
def MaintenanceMonitor.analyzeLogs (fileExists : Bool) (content : String)
    (now : String) : LogAnalysis :=
  if !fileExists then { status := "error", message := some "Log file not found" }
  else
    let lines := pySplitLines content
    let errors := lines.filter (fun line => strContains (pyUpper line) "ERROR")
    let warnings := lines.filter (fun line => strContains (pyUpper line) "WARNING")
    { status := "success",
      total_lines := lines.length,
      errors := errors.length,
      warnings := warnings.length,
      recent_errors := lastSlice 10 errors,
      recent_warnings := lastSlice 10 warnings,
      timestamp := some now }

theorem str_eq_of_data_eq {a b : String} (h : a.data = b.data) : a = b := by
  cases a; cases b; exact congrArg String.mk h

theorem strContains_iff (s pat : String) :
    strContains s pat = true ↔ ∃ a b : String, s = a ++ pat ++ b := by
  unfold strContains
  rw [decide_eq_true_eq]
  constructor
  · rintro ⟨u, v, huv⟩
    refine ⟨⟨u⟩, ⟨v⟩, ?_⟩
    apply str_eq_of_data_eq
    simpa [String.data_append] using huv.symm
  · rintro ⟨a, b, rfl⟩
    exact ⟨a.data, b.data, by simp [String.data_append]⟩

/-- C8. Log analysis classifies every line independently and
non-exclusively: a line counts as an error exactly when its upper-cased
text contains "ERROR" (i.e. decomposes as `a ++ "ERROR" ++ b`) and as a
warning exactly when it contains "WARNING"; the `errors` and `warnings`
fields are those counts, `recent_errors`/`recent_warnings` are the last
at most 10 matching lines in order (a suffix of the matching lines),
and on the spec's example of two error lines and one warning line the
counts are 2 and 1. -/
theorem analyze_logs_counts (content now : String) :
    ((MaintenanceMonitor.analyzeLogs true content now).errors
        = ((pySplitLines content).filter
            (fun line => strContains (pyUpper line) "ERROR")).length
      ∧ (MaintenanceMonitor.analyzeLogs true content now).warnings
        = ((pySplitLines content).filter
            (fun line => strContains (pyUpper line) "WARNING")).length)
    ∧ (∀ line : String,
        (strContains (pyUpper line) "ERROR" = true
          ↔ ∃ a b : String, pyUpper line = a ++ "ERROR" ++ b)
        ∧ (strContains (pyUpper line) "WARNING" = true
          ↔ ∃ a b : String, pyUpper line = a ++ "WARNING" ++ b))
    ∧ ((MaintenanceMonitor.analyzeLogs true content now).recent_errors
        = lastSlice 10 ((pySplitLines content).filter
            (fun line => strContains (pyUpper line) "ERROR"))
      ∧ (MaintenanceMonitor.analyzeLogs true content now).recent_errors.length ≤ 10
      ∧ (MaintenanceMonitor.analyzeLogs true content now).recent_errors
          <:+ ((pySplitLines content).filter
            (fun line => strContains (pyUpper line) "ERROR"))
      ∧ (MaintenanceMonitor.analyzeLogs true content now).recent_warnings
          = lastSlice 10 ((pySplitLines content).filter
            (fun line => strContains (pyUpper line) "WARNING")))
    ∧ ((MaintenanceMonitor.analyzeLogs true
          "2024 ERROR boot failed\ninfo: ok\nerror: disk\nWarning: slow\nlast line"
          "2024-01-01T00:00:00").errors = 2
      ∧ (MaintenanceMonitor.analyzeLogs true
          "2024 ERROR boot failed\ninfo: ok\nerror: disk\nWarning: slow\nlast line"
          "2024-01-01T00:00:00").warnings = 1) := by
  refine ⟨⟨rfl, rfl⟩, ?_, ⟨rfl, ?_, ?_, rfl⟩, ⟨?_, ?_⟩⟩
  · intro line
    exact ⟨strContains_iff (pyUpper line) "ERROR", strContains_iff (pyUpper line) "WARNING"⟩
  · show (lastSlice 10 ((pySplitLines content).filter
      (fun line => strContains (pyUpper line) "ERROR"))).length ≤ 10
    unfold lastSlice
    rw [List.length_drop]
    omega
  · show lastSlice 10 ((pySplitLines content).filter
      (fun line => strContains (pyUpper line) "ERROR"))
        <:+ ((pySplitLines content).filter (fun line => strContains (pyUpper line) "ERROR"))
    exact List.drop_suffix _ _
  · decide
  · decide
